import Mathlib

/-!
Verification of the extraction orchestration and fallback pipeline of
`src/api/extract.py` (a FastAPI web-content extraction service).

Shallow embedding conventions:
  - Pure string manipulation from the source (`detect_html_type`'s URL and
    token-bag logic, `convert_markdown`'s regex substitutions, the charset
    resolution control flow of `fetch_url`) is translated into executable
    Lean functions over `String` / `List Char` / `List Nat` (bytes).
  - External collaborators (the HTTP transport, Python `bytes.decode`,
    `chardet.detect`, BeautifulSoup parsing, `magic_html`'s extractor,
    `markdownify`, the r.jina.ai fallback service) are modelled as explicit
    oracle parameters, so theorems quantify over their behaviour.
  - Python exceptions are modelled with `Option`/`Except`; an HTTP error
    response is an `Except.error` carrying a status code and detail string.
-/

namespace MagicHtmlApi

/-- Model of Python's `sub in s` substring test: `startsWithL pat l` is true
when `pat` is an initial segment of `l`. -/
def startsWithL : List Char → List Char → Bool
  | [], _ => true
  | _ :: _, [] => false
  | p :: ps, c :: cs => p == c && startsWithL ps cs

/-- True when `pat` occurs as a contiguous run somewhere in `l`
(Python `pat in s`; the empty pattern always occurs). -/
def hasSubList (pat : List Char) : List Char → Bool
  | [] => startsWithL pat []
  | c :: t => startsWithL pat (c :: t) || hasSubList pat t

/-- Python's `pat in s` on strings: `pat` occurs as a substring of `s`. -/
def containsStr (s pat : String) : Bool :=
  hasSubList pat.toList s.toList

/-- Python's `str.lower()`. The source only lowercases URLs, encoding names
and CSS class/id tokens, for which the ASCII case mapping of
`Char.toLower` coincides with Python's Unicode mapping. -/
def pyLower (s : String) : String :=
  String.mk (s.toList.map Char.toLower)

/-- Python whitespace as used by `str.strip()` / `str.isspace()` (the ASCII
whitespace characters; the further Unicode whitespace code points Python
also accepts play no role in any claim). -/
def pyWhitespace (c : Char) : Bool :=
  c = ' ' || c = '\t' || c = '\n' || c = '\r' || c = Char.ofNat 11 || c = Char.ofNat 12

/-- Remove leading whitespace (left part of Python `str.strip()`). -/
def trimL (l : List Char) : List Char := l.dropWhile pyWhitespace

/-- Remove trailing whitespace (right part of Python `str.strip()`). -/
def trimR (l : List Char) : List Char := (l.reverse.dropWhile pyWhitespace).reverse

/-- Python `str.strip()` on a character list. -/
def pyStrip (l : List Char) : List Char := trimR (trimL l)

/-- Python `str.isspace()`: non-empty and entirely whitespace. -/
def pyIsspace (s : String) : Bool :=
  !s.toList.isEmpty && s.toList.all pyWhitespace

/-!
Page classifier, `detect_html_type` (src/api/extract.py lines 104-144).

BeautifulSoup's HTML parsing is an external capability; the source only
consumes the parse through `soup.find_all(class_=True)` / `find_all(id=True)`.
A fetched document is therefore represented by exactly that data: the list of
`class` attribute values (each a list of tokens) of the elements carrying a
class, in document order, and the list of `id` attribute values of the
elements carrying an id.
-/

structure ParsedHtml where
  classAttrs : List (List String)
  idAttrs : List String
deriving DecidableEq

/-- The `forum_indicators` list of src/api/extract.py lines 126-129. -/
def forum_indicators : List String :=
  ["forum", "topic", "thread", "post", "reply", "comment", "discuss",
   "论坛", "帖子", "回复", "评论", "讨论"]

/-- Lines 131-138: all class tokens, then all id values, joined with a space
and lowercased into one token bag. -/
def classes_and_ids (html : ParsedHtml) : String :=
  pyLower (String.intercalate " " (html.classAttrs.flatten ++ html.idAttrs))

/-- Lines 104-144 (`detect_html_type`): URL rules first (weixin, then zhihu,
both on the lowercased URL), otherwise the forum-indicator scan of the
class/id token bag, defaulting to "article". -/
def detect_html_type (html : ParsedHtml) (url : String) : String :=
  let url_lower := pyLower url
  if containsStr url_lower "mp.weixin.qq.com" || containsStr url_lower "weixin.qq.com" then
    "weixin"
  else if containsStr url_lower "zhihu.com" then
    "jina"
  else if forum_indicators.any (fun ind => containsStr (classes_and_ids html) ind) then
    "forum"
  else
    "article"

/-!
Result of the primary extractor, `extractor.extract(...)` (magic_html, an
external capability), and `extract_html_content` (lines 90-102), which
normalises it: a `dict` yields its "html" entry (a string) or "" when the
key is absent; any non-dict yields "".
-/

inductive PyData where
  | dict (html : Option String)
  | nonDict
deriving DecidableEq

/-- Lines 90-102 (`extract_html_content`). -/
def extract_html_content : PyData → String
  | PyData.dict (some h) => h
  | PyData.dict none => ""
  | PyData.nonDict => ""

/-!
Format converter for lightweight markup, `convert_markdown`
(src/api/extract.py lines 163-186). Its "text" branch runs three
`re.sub` passes and then `str.strip()`:

  1. `re.sub(r'!\[.*?\]\(.*?\)', '[图片]', markdown)`  - images
  2. `re.sub(r'\[([^\]]+)\]\([^\)]+\)', r'\1', text)`  - links
  3. `re.sub(r'[#*` ++ "\x60" ++ r']', '', text)`      - markup characters

The two pattern substitutions are implemented below with Python's leftmost,
non-overlapping `re.sub` semantics; replacement text is not rescanned.
`.*?` is lazy and does not cross a newline; `[^\]]` / `[^\)]` do match
newlines. Pattern 1 needs the backtracking behaviour of the lazy `.*?`: the
first `]` immediately followed by `(` whose group closes with `)` before a
newline wins; a `]` that cannot complete the match is swallowed by `.*?`.
-/

/-- Tail after the first `)` reachable without crossing a newline (the lazy
`.*?\)` at the end of the image pattern); `none` when no such `)` exists. -/
def closeParen : List Char → Option (List Char)
  | [] => none
  | c :: t => if c = ')' then some t else if c = '\n' then none else closeParen t

/-- Given the characters after a leading `![`, the tail remaining after the
shortest completion `...](...)` of the image pattern, or `none`. -/
def imgBody : List Char → Option (List Char)
  | [] => none
  | c :: t =>
    if c = '\n' then none
    else if c = ']' ∧ t.head? = some '(' then
      match closeParen t.tail with
      | some rest => some rest
      | none => imgBody t
    else imgBody t

/-- Replacement text for an image match (the source's `'[图片]'`). -/
def imgPlaceholder : List Char := "[图片]".toList

/-- One fuel-indexed pass of `re.sub(r'!\[.*?\]\(.*?\)', '[图片]', s)`.
Every recursive call strictly shortens the list, so fuel equal to the
original length never runs out. -/
def subImageF : Nat → List Char → List Char
  | 0, l => l
  | fuel + 1, l =>
    match l with
    | [] => []
    | c :: t =>
      if c = '!' ∧ t.head? = some '[' then
        match imgBody t.tail with
        | some rest => imgPlaceholder ++ subImageF fuel rest
        | none => c :: subImageF fuel t
      else c :: subImageF fuel t

/-- The image substitution (pass 1 of the "text" branch). -/
def subImage (l : List Char) : List Char := subImageF l.length l

/-- Match of `([^\]]+)\]\([^\)]+\)` against the characters after a leading
`[`: the captured group and the tail after the closing `)`, or `none`.
The negated classes make both inner runs maximal up to the first `]`
(resp. `)`), and both must be non-empty. -/
def linkBody (t : List Char) : Option (List Char × List Char) :=
  let a := t.takeWhile (fun c => c != ']')
  let r1 := t.dropWhile (fun c => c != ']')
  if a = [] then none
  else
    match r1 with
    | [] => none
    | _ :: r1t =>
      if r1t.head? = some '(' then
        let b := r1t.tail.takeWhile (fun c => c != ')')
        if b = [] then none
        else
          match r1t.tail.dropWhile (fun c => c != ')') with
          | [] => none
          | _ :: r3 => some (a, r3)
      else none

/-- One fuel-indexed pass of `re.sub(r'\[([^\]]+)\]\([^\)]+\)', r'\1', s)`. -/
def subLinkF : Nat → List Char → List Char
  | 0, l => l
  | fuel + 1, l =>
    match l with
    | [] => []
    | c :: t =>
      if c = '[' then
        match linkBody t with
        | some (g, rest) => g ++ subLinkF fuel rest
        | none => c :: subLinkF fuel t
      else c :: subLinkF fuel t

/-- The link substitution (pass 2 of the "text" branch). -/
def subLink (l : List Char) : List Char := subLinkF l.length l

/-- True for characters kept by pass 3, which deletes `#`, `*` and the
backquote (code point 96). -/
def notSpecial (c : Char) : Bool :=
  !(c = '#' || c = '*' || c = Char.ofNat 96)

/-- Pass 3 of the "text" branch: `re.sub` with a character class deletes
every occurrence of the three markup characters. -/
def removeSpecial (l : List Char) : List Char := l.filter notSpecial

/-- Lines 163-186 (`convert_markdown`): "markdown" and "html" are identity
(the html branch is an acknowledged passthrough), "text" strips markup,
anything else passes through. -/
def convert_markdown (markdown : String) (output_format : String) : String :=
  if output_format = "markdown" then markdown
  else if output_format = "text" then
    String.mk (pyStrip (removeSpecial (subLink (subImage markdown.toList))))
  else if output_format = "html" then markdown
  else markdown

/-!
Format converter for markup fragments, `convert_content` (lines 59-88).
The "markdown" branch calls `markdownify` and the "text" branch parses with
BeautifulSoup and joins the visible text nodes - both external capabilities,
passed as oracles `mdRender` and `getText`. "html" is identity and any
unrecognised format passes through. (The `isinstance` guard is vacuous here:
the model's fragment is always a string.)
-/

def convert_content (mdRender getText : String → String)
    (html : String) (output_format : String) : String :=
  if output_format = "html" then html
  else if output_format = "markdown" then mdRender html
  else if output_format = "text" then getText html
  else html

/-!
Encoding resolution inside `fetch_url` (src/api/extract.py lines 35-54).
Raw bytes are a `List Nat`; Python's `bytes.decode(name)` and
`chardet.detect(content)['encoding']` are oracles:

  - `decode name bytes = some s` models a successful decode, `none` a
    raised `UnicodeDecodeError` (or `LookupError` for an unknown name);
  - `detect bytes` is the detected encoding name, `none` for Python `None`.
-/

/-- Fuel-indexed core of Python's `s.split(sep)` for a non-empty separator:
non-overlapping leftmost occurrences of `sep` cut `l` into pieces. Every
recursive call strictly shortens the list, so fuel equal to the original
length never runs out. -/
def splitOnLF (sep : List Char) : Nat → List Char → List (List Char)
  | 0, l => [l]
  | fuel + 1, l =>
    if sep ≠ [] ∧ startsWithL sep l then
      [] :: splitOnLF sep fuel (l.drop sep.length)
    else
      match l with
      | [] => [[]]
      | c :: t =>
        match splitOnLF sep fuel t with
        | [] => [[c]]
        | p :: ps => (c :: p) :: ps

/-- Python `s.split(sep)` (non-empty `sep`). -/
def pySplit (s sep : String) : List String :=
  (splitOnLF sep.toList s.toList.length s.toList).map String.mk

/-- Line 39: `content_type.split('charset=')[-1].split(';')[0]` on the
already lowercased content-type header. -/
def extractCharset (ct : String) : String :=
  (pySplit ((pySplit ct "charset=").getLastD "") ";").headD ""

/-- Lines 37-42: when the header declares a charset, try decoding with it;
a failure (`except: pass`) yields `none`, as does an absent declaration. -/
def charsetAttempt (decode : String → List Nat → Option String)
    (ct : String) (content : List Nat) : Option String :=
  if containsStr ct "charset=" then decode (extractCharset ct) content else none

/-- Lines 51-52: a truthy detected encoding whose lowercase form is gb2312
or gbk is upgraded to the superset gb18030; otherwise kept as is. -/
def chardet_upgrade (detected : Option String) : Option String :=
  match detected with
  | some e =>
    if e ≠ "" && (pyLower e == "gb2312" || pyLower e == "gbk") then some "gb18030" else some e
  | none => none

/-- Python `x or default` for an optional string (`None` and `""` are
falsy). Used for line 54's `encoding or 'utf-8'`. -/
def pyOr (o : Option String) (d : String) : String :=
  match o with
  | some e => if e = "" then d else e
  | none => d

/-- Lines 35-54: the encoding resolution ladder of `fetch_url`. The header
is lowercased (line 36); a declared charset is tried first, then UTF-8,
then the chardet-detected (possibly upgraded) encoding with UTF-8 as the
default when detection yields nothing. `none` means the final decode also
raised, so the exception escapes to the `except` on line 56. -/
def resolveEncoding (decode : String → List Nat → Option String)
    (detect : List Nat → Option String)
    (header : String) (content : List Nat) : Option String :=
  let ct := pyLower header
  match charsetAttempt decode ct content with
  | some s => some s
  | none =>
    match decode "utf-8" content with
    | some s => some s
    | none => decode (pyOr (chardet_upgrade (detect content)) "utf-8") content

/-!
The orchestrator: `fetch_url`'s error envelope (lines 13-57),
`fetch_from_jina` (lines 147-161) and the `/api/extract` endpoint
`extract_content` (lines 188-259).

Request-scoped external outcomes are oracles:
  - `fetchRaw : Except String ParsedHtml` - the outcome of the primary
    HTTP GET plus decoding plus parsing: a parsed document on success, or
    the stringified exception (`str(e)`) of whichever step raised;
  - `extractor d url type` - `extractor.extract(html, base_url=url,
    html_type=type)` of magic_html, which may raise;
  - `jina : Except String String` - `fetch_from_jina(url)`: the
    lightweight-markup text from https://r.jina.ai, or the stringified
    exception of a failed or timed-out call. The oracle is one value per
    request: the model assumes the two jina calls a single request can make
    (lines 226 and 248) behave identically.
-/

structure HTTPExceptionModel where
  status_code : Nat
  detail : String
deriving DecidableEq

instance {ε α : Type} [DecidableEq ε] [DecidableEq α] : DecidableEq (Except ε α) := fun a b =>
  match a, b with
  | Except.ok x, Except.ok y =>
    if h : x = y then isTrue (congrArg Except.ok h)
    else isFalse fun hh => h (Except.ok.inj hh)
  | Except.error x, Except.error y =>
    if h : x = y then isTrue (congrArg Except.error h)
    else isFalse fun hh => h (Except.error.inj hh)
  | Except.ok _, Except.error _ => isFalse fun hh => Except.noConfusion hh
  | Except.error _, Except.ok _ => isFalse fun hh => Except.noConfusion hh

/-- The response envelope (the dict literals at lines 208-214, 228-234,
238-244, 250-256). `success` is the literal `True` of the source. -/
structure Envelope where
  url : String
  content : String
  format : String
  type : String
  success : Bool
deriving DecidableEq

/-- Lines 13-57 (`fetch_url`): any exception inside the fetch (network
error, non-2xx status via `raise_for_status`, or a decoding failure such as
`resolveEncoding` returning `none`) is re-raised as
`HTTPException(400, "Error fetching URL: " + str(e))`. -/
def fetch_url (raw : Except String ParsedHtml) : Except HTTPExceptionModel ParsedHtml :=
  match raw with
  | Except.ok doc => Except.ok doc
  | Except.error e => Except.error ⟨400, "Error fetching URL: " ++ e⟩

/-- The fallback block the source repeats verbatim at lines 205-214 (zhihu
route), 246-256 (inner `except`) and, reached through the outer `except` on
line 258, wraps a jina failure as `HTTPException(500, str(e))`. -/
def jina_fallback (url output_format : String) (jina : Except String String) :
    Except HTTPExceptionModel Envelope :=
  match jina with
  | Except.ok markdown_content =>
    Except.ok ⟨url, convert_markdown markdown_content output_format, output_format, "jina", true⟩
  | Except.error e => Except.error ⟨500, e⟩

/-- Lines 188-259 (`extract_content`, the `/api/extract` endpoint).
Control flow of the source:
  - line 205: `if 'zhihu.com' in url:` (case-sensitive) goes straight to
    the jina fallback; a jina failure there escapes to the outer `except`
    and becomes a 500;
  - lines 217-244 (inner `try`): fetch, classify, extract, normalise; an
    empty or whitespace-only fragment triggers the jina fallback from
    inside the inner `try`, so a jina failure there is caught by the inner
    `except` (line 246), which calls jina once more - modelled by the same
    oracle value - and a second failure becomes a 500;
  - line 246 (inner `except`): any exception of the primary path (the 400
    `HTTPException` of `fetch_url`, an extractor error) triggers the jina
    fallback, whose own failure becomes a 500;
  - a non-empty fragment is converted with `convert_content` and labelled
    with the classifier's type. -/
def extract_content (url : String) (output_format : String)
    (fetchRaw : Except String ParsedHtml)
    (extractor : ParsedHtml → String → String → Except String PyData)
    (jina : Except String String)
    (mdRender getText : String → String) : Except HTTPExceptionModel Envelope :=
  if containsStr url "zhihu.com" then
    jina_fallback url output_format jina
  else
    match fetch_url fetchRaw with
    | Except.error _ => jina_fallback url output_format jina
    | Except.ok html =>
      match extractor html url (detect_html_type html url) with
      | Except.error _ => jina_fallback url output_format jina
      | Except.ok extracted_data =>
        let html_content := extract_html_content extracted_data
        if html_content = "" ∨ pyIsspace html_content then
          match jina with
          | Except.ok markdown_content =>
            Except.ok ⟨url, convert_markdown markdown_content output_format,
              output_format, "jina", true⟩
          | Except.error _ => jina_fallback url output_format jina
        else
          Except.ok ⟨url, convert_content mdRender getText html_content output_format,
            output_format, detect_html_type html url, true⟩

/-- Identity oracle for the external renderers, used at concrete inputs. -/
def strId : String → String := fun s => s

/-- Concrete document and extractor oracles used by witnesses and
counterexamples. -/
def docEmpty : ParsedHtml := ⟨[], []⟩

def extractorOkHtml : ParsedHtml → String → String → Except String PyData :=
  fun _ _ _ => Except.ok (PyData.dict (some "<p>hi</p>"))

def extractorBlank : ParsedHtml → String → String → Except String PyData :=
  fun _ _ _ => Except.ok (PyData.dict (some "  "))

/-- Oracle for a decode that always raises; `resolveEncoding` only consults
it at encoding "utf-8" on the byte 0xFF, where Python's decode does raise. -/
def decodeNone : String → List Nat → Option String := fun _ _ => none

/-- Oracle for `chardet.detect` returning `{'encoding': None, ...}`, its
documented result when no prober reaches a usable confidence. -/
def detectNone : List Nat → Option String := fun _ => none

/-- Oracle for a body that is valid UTF-8 ("hi") but invalid in every other
encoding Python would be asked for. -/
def decodeUtf8Hi : String → List Nat → Option String :=
  fun enc _ => if enc = "utf-8" then some "hi" else none

/-- Oracle for a legacy-Chinese body: only the superset gb18030 decodes it. -/
def decodeGb : String → List Nat → Option String :=
  fun enc _ => if enc = "gb18030" then some "好" else none

/-- Oracle for `chardet.detect` reporting GBK (chardet uses upper-case
names). -/
def detectGBK : List Nat → Option String := fun _ => some "GBK"

/-- A step of the primary path fails, in the sense of the orchestrator's
inner `try` (lines 217-245): the fetch raised, the extractor raised, or the
extracted fragment is empty or whitespace-only (which the source treats
like a failure by routing it to the same fallback). -/
def primary_step_fails (url : String) (fetchRaw : Except String ParsedHtml)
    (extractor : ParsedHtml → String → String → Except String PyData) : Prop :=
  (∃ msg, fetchRaw = Except.error msg) ∨
  (∃ d msg, fetchRaw = Except.ok d ∧
    extractor d url (detect_html_type d url) = Except.error msg) ∨
  (∃ d r, fetchRaw = Except.ok d ∧
    extractor d url (detect_html_type d url) = Except.ok r ∧
    (extract_html_content r = "" ∨ pyIsspace (extract_html_content r) = true))

/-!
End of the definitions. Sanity checks on concrete inputs, then helper
lemmas, then one theorem per claim (with its witness or counterexample).
-/

example : containsStr "https://www.zhihu.com/q" "zhihu.com" = true := by decide
example : containsStr "https://www.ZHIHU.com/q" "zhihu.com" = false := by decide
example : pyLower "https://www.ZHIHU.com/q" = "https://www.zhihu.com/q" := by decide
example : pyIsspace "  " = true := by decide
example : pyIsspace "" = false := by decide
example : String.mk (pyStrip "  a b ".toList) = "a b" := by decide

example : detect_html_type ⟨[], []⟩ "https://mp.weixin.qq.com/s/abc" = "weixin" := by decide
example : detect_html_type ⟨[], []⟩ "https://www.ZHIHU.com/question/1" = "jina" := by decide
example : detect_html_type ⟨[["Thread-List"]], []⟩ "https://example.com/" = "forum" := by decide
example : detect_html_type ⟨[["main"]], ["content1"]⟩ "https://example.com/" = "article" := by decide

example : convert_markdown "![alt text](http://x/y.png) done" "text" = "[图片] done" := by decide
example : convert_markdown "see [here](http://x) now" "text" = "see here now" := by decide
example : convert_markdown "# Title **bold**" "text" = "Title bold" := by decide
example : convert_markdown "a *b* c" "markdown" = "a *b* c" := by decide

example : extractCharset "text/html; charset=utf-8" = "utf-8" := by decide
example : extractCharset "text/html; charset=big5; x=y" = "big5" := by decide
example : chardet_upgrade (some "GB2312") = some "gb18030" := by decide
example : chardet_upgrade (some "Big5") = some "Big5" := by decide

example :
    extract_content "https://www.zhihu.com/question/1" "markdown"
      (Except.error "unused") extractorOkHtml (Except.ok "MD") strId strId =
    Except.ok ⟨"https://www.zhihu.com/question/1", "MD", "markdown", "jina", true⟩ := by decide

example :
    extract_content "https://example.com/a" "html"
      (Except.ok docEmpty) extractorOkHtml (Except.ok "MD") strId strId =
    Except.ok ⟨"https://example.com/a", "<p>hi</p>", "html", "article", true⟩ := by decide

example :
    extract_content "https://www.ZHIHU.com/question/1" "html"
      (Except.ok docEmpty) extractorOkHtml (Except.ok "MD") strId strId =
    Except.ok ⟨"https://www.ZHIHU.com/question/1", "<p>hi</p>", "html", "jina", true⟩ := by decide

example :
    extract_content "https://example.com/a" "text"
      (Except.error "boom") extractorOkHtml (Except.error "jina down") strId strId =
    Except.error ⟨500, "jina down"⟩ := by decide

/-! Helper lemmas about stripping and the two regex passes. -/

theorem dropWhile_dropWhile (p : Char → Bool) (l : List Char) :
    (l.dropWhile p).dropWhile p = l.dropWhile p := by
  induction l with
  | nil => rfl
  | cons a t ih =>
    by_cases h : p a
    · rw [List.dropWhile_cons_of_pos h]; exact ih
    · rw [List.dropWhile_cons_of_neg h, List.dropWhile_cons_of_neg h]

theorem exists_dropWhile_append (p : Char → Bool) (l : List Char) :
    ∃ t, t ++ l.dropWhile p = l := by
  induction l with
  | nil => exact ⟨[], rfl⟩
  | cons a t ih =>
    by_cases h : p a
    · obtain ⟨w, hw⟩ := ih
      exact ⟨a :: w, by rw [List.dropWhile_cons_of_pos h, List.cons_append, hw]⟩
    · exact ⟨[], by rw [List.dropWhile_cons_of_neg h, List.nil_append]⟩

theorem trimR_append (l : List Char) : ∃ s, trimR l ++ s = l := by
  obtain ⟨t, ht⟩ := exists_dropWhile_append pyWhitespace l.reverse
  refine ⟨t.reverse, ?_⟩
  have h2 := congrArg List.reverse ht
  rw [List.reverse_append, List.reverse_reverse] at h2
  exact h2

theorem trimL_head_not (l : List Char) (a : Char) (t : List Char)
    (h : trimL l = a :: t) : pyWhitespace a = false := by
  have h2 := List.head?_dropWhile_not pyWhitespace l
  rw [show l.dropWhile pyWhitespace = a :: t from h] at h2
  simpa using h2

theorem trimL_trimR (l : List Char) (h : trimL l = l) :
    trimL (trimR l) = trimR l := by
  cases hR : trimR l with
  | nil => rfl
  | cons b s =>
    obtain ⟨r, hr⟩ := trimR_append l
    rw [hR] at hr
    have hb : pyWhitespace b = false :=
      trimL_head_not l b (s ++ r) (by rw [h, ← hr]; rfl)
    show (b :: s).dropWhile pyWhitespace = b :: s
    exact List.dropWhile_cons_of_neg (by simp [hb])

theorem trimR_trimR (l : List Char) : trimR (trimR l) = trimR l := by
  show ((trimR l).reverse.dropWhile pyWhitespace).reverse = trimR l
  rw [show (trimR l).reverse = l.reverse.dropWhile pyWhitespace from List.reverse_reverse _,
    dropWhile_dropWhile]
  rfl

theorem pyStrip_pyStrip (l : List Char) : pyStrip (pyStrip l) = pyStrip l := by
  show trimR (trimL (trimR (trimL l))) = trimR (trimL l)
  rw [trimL_trimR (trimL l) (dropWhile_dropWhile pyWhitespace l), trimR_trimR]

theorem mem_of_mem_trimL {a : Char} {l : List Char} (h : a ∈ trimL l) : a ∈ l := by
  obtain ⟨t, ht⟩ := exists_dropWhile_append pyWhitespace l
  rw [← ht]; exact List.mem_append_right t h

theorem mem_of_mem_trimR {a : Char} {l : List Char} (h : a ∈ trimR l) : a ∈ l := by
  obtain ⟨s, hs⟩ := trimR_append l
  rw [← hs]; exact List.mem_append_left s h

theorem mem_of_mem_pyStrip {a : Char} {l : List Char} (h : a ∈ pyStrip l) : a ∈ l :=
  mem_of_mem_trimL (mem_of_mem_trimR h)

theorem subImageF_no_bracket :
    ∀ (fuel : Nat) (l : List Char), '[' ∉ l → subImageF fuel l = l
  | 0, _, _ => rfl
  | _ + 1, [], _ => rfl
  | fuel + 1, c :: t, h => by
    have hc : ¬(c = '!' ∧ t.head? = some '[') := by
      rintro ⟨-, hh⟩
      cases t with
      | nil => simp at hh
      | cons b tb =>
        simp only [List.head?_cons, Option.some.injEq] at hh
        exact h (by rw [← hh] at *; exact List.mem_cons_of_mem c (List.mem_cons_self b tb))
    have ht : '[' ∉ t := fun hm => h (List.mem_cons_of_mem c hm)
    show subImageF (fuel + 1) (c :: t) = c :: t
    simp only [subImageF]
    rw [if_neg hc, subImageF_no_bracket fuel t ht]

theorem subImage_no_bracket (l : List Char) (h : '[' ∉ l) : subImage l = l :=
  subImageF_no_bracket l.length l h

theorem subLinkF_no_bracket :
    ∀ (fuel : Nat) (l : List Char), '[' ∉ l → subLinkF fuel l = l
  | 0, _, _ => rfl
  | _ + 1, [], _ => rfl
  | fuel + 1, c :: t, h => by
    have hc : ¬(c = '[') := fun hh => h (hh ▸ List.mem_cons_self c t)
    have ht : '[' ∉ t := fun hm => h (List.mem_cons_of_mem c hm)
    show subLinkF (fuel + 1) (c :: t) = c :: t
    simp only [subLinkF]
    rw [if_neg hc, subLinkF_no_bracket fuel t ht]

theorem subLink_no_bracket (l : List Char) (h : '[' ∉ l) : subLink l = l :=
  subLinkF_no_bracket l.length l h

theorem removeSpecial_pyStrip_removeSpecial (l : List Char) :
    removeSpecial (pyStrip (removeSpecial l)) = pyStrip (removeSpecial l) :=
  List.filter_eq_self.mpr (fun _ ha => List.of_mem_filter (mem_of_mem_pyStrip ha))

theorem not_bracket_pyStrip_removeSpecial (l : List Char) (h : '[' ∉ l) :
    '[' ∉ pyStrip (removeSpecial l) :=
  fun hm => h (List.mem_of_mem_filter (mem_of_mem_pyStrip hm))

theorem convert_markdown_text (y : String) :
    convert_markdown y "text" =
      String.mk (pyStrip (removeSpecial (subLink (subImage y.toList)))) := by
  simp [convert_markdown]

/-- C8 counterexample: `convert_markdown(·, "text")` is not idempotent.
On `"!#[](b)"` the first pass leaves the text alone (no image syntax: `![`
is broken by the `#`; no link syntax: the bracket pair is empty), but the
character pass then deletes the `#`, creating the image syntax `"![](b)"`
in the output; a second application rewrites it to the placeholder
`"[图片]"`. -/
theorem c8_counterexample :
    ¬ (convert_markdown (convert_markdown "!#[](b)" "text") "text" =
        convert_markdown "!#[](b)" "text") := by decide

/-- C8 (amended): convert_markdown with format "text" is idempotent on
every input containing no `[` character (the counterexample forces the
restriction: deleting `#`/`*`/backquote characters can create new image or
link syntax, which requires a bracket). On bracket-free input both regex
passes are the identity, the character filter is idempotent, and stripping
is idempotent. -/
theorem c8_amended (x : String) (h : '[' ∉ x.toList) :
    convert_markdown (convert_markdown x "text") "text" =
      convert_markdown x "text" := by
  rw [convert_markdown_text x, subImage_no_bracket x.toList h,
    subLink_no_bracket x.toList h]
  rw [convert_markdown_text (String.mk (pyStrip (removeSpecial x.toList)))]
  rw [show (String.mk (pyStrip (removeSpecial x.toList))).toList =
        pyStrip (removeSpecial x.toList) from rfl]
  rw [subImage_no_bracket _ (not_bracket_pyStrip_removeSpecial x.toList h),
    subLink_no_bracket _ (not_bracket_pyStrip_removeSpecial x.toList h),
    removeSpecial_pyStrip_removeSpecial, pyStrip_pyStrip]

/-- C8 witness: the amended idempotence at the concrete bracket-free input
`"  #a  "`. -/
theorem c8_witness :
    ('[' ∉ ("  #a  " : String).toList) ∧
      convert_markdown (convert_markdown "  #a  " "text") "text" =
        convert_markdown "  #a  " "text" :=
  ⟨by decide, c8_amended "  #a  " (by decide)⟩

/-- C5 counterexample: the Encoding Resolver can raise to its caller. With
a body that is the single byte 0xFF (invalid UTF-8), no declared charset,
and chardet yielding no encoding, line 54 evaluates
`content.decode(None or 'utf-8')` - retrying exactly the UTF-8 decode that
already failed - so the resolver raises (modelled by `none`) and
`fetch_url` turns it into a 400 error instead of returning text. -/
theorem c5_counterexample :
    resolveEncoding decodeNone detectNone "" [255] = none := rfl

/-- C5 (amended): the resolver falls back progressively (declared charset,
then UTF-8, then the detected-or-default encoding) but is not total: it
fails exactly when all three attempts fail, and only then raises to its
caller. -/
theorem c5_amended (decode : String → List Nat → Option String)
    (detect : List Nat → Option String) (header : String) (content : List Nat) :
    resolveEncoding decode detect header content = none ↔
      (charsetAttempt decode (pyLower header) content = none ∧
       decode "utf-8" content = none ∧
       decode (pyOr (chardet_upgrade (detect content)) "utf-8") content = none) := by
  cases hc : charsetAttempt decode (pyLower header) content with
  | some s => simp [resolveEncoding, hc]
  | none =>
    cases h8 : decode "utf-8" content with
    | some s => simp [resolveEncoding, hc, h8]
    | none => simp [resolveEncoding, hc, h8]

/-- C6: when the declared-charset attempt fails (or no charset is
declared), a body that is valid UTF-8 is returned as its direct UTF-8
decode - the failed charset attempt is silently discarded by the
`except: pass` at line 41-42. -/
theorem c6_utf8_fallback (decode : String → List Nat → Option String)
    (detect : List Nat → Option String) (header : String) (content : List Nat)
    (s : String)
    (hcs : charsetAttempt decode (pyLower header) content = none)
    (h8 : decode "utf-8" content = some s) :
    resolveEncoding decode detect header content = some s := by
  simp [resolveEncoding, hcs, h8]

/-- C6 witness: a misleading `charset=big5` header on a valid-UTF-8 body
"hi" still yields the UTF-8 decode. -/
theorem c6_witness :
    resolveEncoding decodeUtf8Hi detectNone "text/html; charset=big5" [104, 105] =
      some "hi" :=
  c6_utf8_fallback decodeUtf8Hi detectNone "text/html; charset=big5" [104, 105] "hi"
    (by decide) (by decide)

/-- C7: with no declared charset, a body that is not valid UTF-8 and is
detected as GB2312 or GBK (in any letter case) is decoded with the superset
GB18030, not with the detected encoding itself (lines 51-54). -/
theorem c7_gb_upgrade (decode : String → List Nat → Option String)
    (detect : List Nat → Option String) (header : String) (content : List Nat)
    (e : String)
    (hns : containsStr (pyLower header) "charset=" = false)
    (h8 : decode "utf-8" content = none)
    (hd : detect content = some e)
    (hgb : pyLower e = "gb2312" ∨ pyLower e = "gbk") :
    resolveEncoding decode detect header content = decode "gb18030" content := by
  have he : e ≠ "" := by
    rintro rfl
    cases hgb with
    | inl hh => exact absurd hh (by decide)
    | inr hh => exact absurd hh (by decide)
  have hcs : charsetAttempt decode (pyLower header) content = none := by
    unfold charsetAttempt
    rw [if_neg (by simp [hns])]
  have hbeq : (pyLower e == "gb2312" || pyLower e == "gbk") = true := by
    cases hgb with
    | inl hh => simp [hh]
    | inr hh => simp [hh]
  simp [resolveEncoding, hcs, h8, hd, chardet_upgrade, he, hbeq, pyOr]

/-- C7 witness: bytes detected as "GBK" with a charset-free header decode
through gb18030. -/
theorem c7_witness :
    resolveEncoding decodeGb detectGBK "text/html" [196, 227] = some "好" :=
  (c7_gb_upgrade decodeGb detectGBK "text/html" [196, 227] "GBK"
    (by decide) (by decide) rfl (Or.inr (by decide))).trans (by decide)

/-- C1 counterexample: a fully successful primary path can produce the
envelope type "jina". The route check at line 205 is case-sensitive
(`'zhihu.com' in url`) while the classifier at line 119 lowercases the URL,
so for `https://www.ZHIHU.com/question/1` the primary path runs, succeeds
with the non-empty fragment `<p>hi</p>`, and is labelled with the
classifier's output "jina" - contradicting "that label is never jina". -/
theorem c1_counterexample :
    extract_content "https://www.ZHIHU.com/question/1" "html"
      (Except.ok docEmpty) extractorOkHtml (Except.ok "MD") strId strId =
      Except.ok ⟨"https://www.ZHIHU.com/question/1", "<p>hi</p>", "html", "jina", true⟩ := by
  decide

/-- C1 (amended): when the primary path fully succeeds with a non-empty,
non-whitespace fragment, the envelope's type equals the classifier's label;
that label can be "jina" only for URLs containing "zhihu.com"
case-insensitively but not case-sensitively (which escape the route check);
for URLs not containing "zhihu.com" case-insensitively it is never
"jina". -/
theorem c1_amended (url output_format : String) (d : ParsedHtml) (r : PyData)
    (extractor : ParsedHtml → String → String → Except String PyData)
    (jina : Except String String) (mdRender getText : String → String)
    (hroute : containsStr url "zhihu.com" = false)
    (hex : extractor d url (detect_html_type d url) = Except.ok r)
    (hne : extract_html_content r ≠ "")
    (hnsp : pyIsspace (extract_html_content r) = false) :
    extract_content url output_format (Except.ok d) extractor jina mdRender getText =
      Except.ok ⟨url, convert_content mdRender getText (extract_html_content r) output_format,
        output_format, detect_html_type d url, true⟩ ∧
    (containsStr (pyLower url) "zhihu.com" = false → detect_html_type d url ≠ "jina") := by
  constructor
  · simp only [extract_content, fetch_url, hroute, Bool.false_eq_true, if_false, hex]
    rw [if_neg (by simp [hne, hnsp])]
  · intro hz
    simp only [detect_html_type]
    split
    · decide
    · split
      · next hcond => exact absurd hcond (by simp [hz])
      · split <;> decide

/-- C1 witness: the amended statement at a concrete article-typed page. -/
theorem c1_witness :
    detect_html_type docEmpty "https://example.com/a" ≠ "jina" :=
  (c1_amended "https://example.com/a" "html" docEmpty (PyData.dict (some "<p>hi</p>"))
    extractorOkHtml (Except.ok "MD") strId strId
    (by decide) (by decide) (by decide) (by decide)).2 (by decide)

/-- C2: for a URL matching the route rule (`'zhihu.com' in url`, line 205)
the result is independent of the fetch, extractor and renderer oracles -
the primary path is never consulted - and is exactly the jina fallback:
on fallback success the envelope has type "jina". -/
theorem c2_direct_fallback (url output_format : String)
    (f1 f2 : Except String ParsedHtml)
    (e1 e2 : ParsedHtml → String → String → Except String PyData)
    (jina : Except String String) (m1 g1 m2 g2 : String → String)
    (h : containsStr url "zhihu.com" = true) :
    extract_content url output_format f1 e1 jina m1 g1 =
      extract_content url output_format f2 e2 jina m2 g2 ∧
    extract_content url output_format f1 e1 jina m1 g1 =
      jina_fallback url output_format jina ∧
    (∀ m, jina = Except.ok m →
      extract_content url output_format f1 e1 jina m1 g1 =
        Except.ok ⟨url, convert_markdown m output_format, output_format, "jina", true⟩) := by
  have key : ∀ (f : Except String ParsedHtml) e m g,
      extract_content url output_format f e jina m g =
        jina_fallback url output_format jina := by
    intro f e m g
    simp only [extract_content, h, if_true]
  refine ⟨(key f1 e1 m1 g1).trans (key f2 e2 m2 g2).symm, key f1 e1 m1 g1, ?_⟩
  intro m hm
  rw [key f1 e1 m1 g1, hm]
  rfl

/-- C2 witness: the spec's own scenario, `https://www.zhihu.com/question/1`
with markdown output: the fallback text is returned verbatim with type
"jina", whatever the (unconsulted) primary oracles would have done. -/
theorem c2_witness :
    extract_content "https://www.zhihu.com/question/1" "markdown"
      (Except.error "unused") extractorOkHtml (Except.ok "MD") strId strId =
      Except.ok ⟨"https://www.zhihu.com/question/1", convert_markdown "MD" "markdown",
        "markdown", "jina", true⟩ :=
  (c2_direct_fallback "https://www.zhihu.com/question/1" "markdown"
    (Except.error "unused") (Except.ok docEmpty) extractorOkHtml extractorOkHtml
    (Except.ok "MD") strId strId strId strId (by decide)).2.2 "MD" rfl

/-- C3: when the primary path runs and the extractor returns an empty or
whitespace-only fragment, and the jina fallback succeeds, the envelope has
type "jina" and success true, whatever the classifier said and whatever
caused the emptiness (lines 223-234). -/
theorem c3_empty_fragment_fallback (url output_format : String)
    (d : ParsedHtml) (r : PyData)
    (extractor : ParsedHtml → String → String → Except String PyData)
    (m : String) (mdRender getText : String → String)
    (hroute : containsStr url "zhihu.com" = false)
    (hex : extractor d url (detect_html_type d url) = Except.ok r)
    (hempty : extract_html_content r = "" ∨ pyIsspace (extract_html_content r) = true) :
    extract_content url output_format (Except.ok d) extractor (Except.ok m)
        mdRender getText =
      Except.ok ⟨url, convert_markdown m output_format, output_format, "jina", true⟩ := by
  simp only [extract_content, fetch_url, hroute, Bool.false_eq_true, if_false, hex]
  rw [if_pos hempty]

/-- C3 witness: a whitespace-only fragment on an article-like page still
yields type "jina". -/
theorem c3_witness :
    extract_content "https://example.org/p" "text"
      (Except.ok docEmpty) extractorBlank (Except.ok "ok") strId strId =
      Except.ok ⟨"https://example.org/p", convert_markdown "ok" "text",
        "text", "jina", true⟩ :=
  c3_empty_fragment_fallback "https://example.org/p" "text" docEmpty
    (PyData.dict (some "  ")) extractorBlank "ok" strId strId
    (by decide) (by decide) (Or.inr (by decide))

/-- C4: when the fallback service fails (oracle `Except.error e`) and it is
reached - either directly through the route check, or because a step of the
primary path failed or the fragment was empty - the request terminates with
a 500 whose detail is exactly the fallback's error message (line 258-259;
equality of the detail in particular gives containment). -/
theorem c4_fallback_failure_500 (url output_format : String)
    (fetchRaw : Except String ParsedHtml)
    (extractor : ParsedHtml → String → String → Except String PyData)
    (e : String) (mdRender getText : String → String)
    (hfail : containsStr url "zhihu.com" = true ∨
      primary_step_fails url fetchRaw extractor) :
    extract_content url output_format fetchRaw extractor (Except.error e)
        mdRender getText =
      Except.error ⟨500, e⟩ := by
  by_cases hz : containsStr url "zhihu.com" = true
  · simp only [extract_content, hz, if_true]
    rfl
  · have hzf : containsStr url "zhihu.com" = false := by
      revert hz; cases containsStr url "zhihu.com" <;> simp
    rcases hfail with habs | hf
    · exact absurd habs hz
    · rcases hf with ⟨msg, rfl⟩ | ⟨d, msg, rfl, hex⟩ | ⟨d, r, rfl, hex, hempty⟩
      · simp only [extract_content, fetch_url, hzf, Bool.false_eq_true, if_false]
        rfl
      · simp only [extract_content, fetch_url, hzf, Bool.false_eq_true, if_false, hex]
        rfl
      · simp only [extract_content, fetch_url, hzf, Bool.false_eq_true, if_false, hex]
        rw [if_pos hempty]
        rfl

/-- C4 witness: a network failure followed by a jina failure surfaces as a
500 carrying the jina error message. -/
theorem c4_witness :
    extract_content "https://example.net/x" "text"
      (Except.error "net down") extractorOkHtml (Except.error "jina down")
      strId strId =
      Except.error ⟨500, "jina down"⟩ :=
  c4_fallback_failure_500 "https://example.net/x" "text"
    (Except.error "net down") extractorOkHtml "jina down" strId strId
    (Or.inr (Or.inl ⟨"net down", rfl⟩))

/-- C9: for URLs matching neither the weixin domain set nor the zhihu rule
(all on the lowercased URL), the classifier returns "forum" when some
forum-indicator keyword occurs in the lowercased class/id token bag
("matching" is the source's substring test `indicator in classes_and_ids`,
line 140), and "article" when none does (lines 122-144). -/
theorem c9_forum_default_rule (html : ParsedHtml) (url : String)
    (h1 : containsStr (pyLower url) "mp.weixin.qq.com" = false)
    (h2 : containsStr (pyLower url) "weixin.qq.com" = false)
    (h3 : containsStr (pyLower url) "zhihu.com" = false) :
    ((∃ ind ∈ forum_indicators, containsStr (classes_and_ids html) ind = true) →
      detect_html_type html url = "forum") ∧
    ((∀ ind ∈ forum_indicators, containsStr (classes_and_ids html) ind = false) →
      detect_html_type html url = "article") := by
  constructor
  · rintro ⟨ind, hmem, hind⟩
    simp only [detect_html_type, h1, h2, h3, Bool.or_self, Bool.false_eq_true, if_false]
    rw [if_pos (List.any_eq_true.mpr ⟨ind, hmem, hind⟩)]
  · intro hall
    simp only [detect_html_type, h1, h2, h3, Bool.or_self, Bool.false_eq_true, if_false]
    rw [if_neg]
    intro hany
    obtain ⟨ind, hmem, hind⟩ := List.any_eq_true.mp hany
    exact absurd hind (by simp [hall ind hmem])

/-- C9 witness: the two directions at concrete documents - a page whose
tokens are "main"/"content1" is an article, one with a "thread-list" class
is a forum. -/
theorem c9_witness :
    detect_html_type ⟨[["main"]], ["content1"]⟩ "https://example.com/x" = "article" ∧
    detect_html_type ⟨[["thread-list"]], []⟩ "https://example.com/x" = "forum" :=
  ⟨(c9_forum_default_rule ⟨[["main"]], ["content1"]⟩ "https://example.com/x"
      (by decide) (by decide) (by decide)).2 (by decide),
   (c9_forum_default_rule ⟨[["thread-list"]], []⟩ "https://example.com/x"
      (by decide) (by decide) (by decide)).1 ⟨"thread", by decide, by decide⟩⟩

/-- Reduction of the endpoint on a non-routed URL with a successful fetch:
the remaining control flow is the extractor match. -/
theorem extract_content_primary (url output_format : String) (d : ParsedHtml)
    (extractor : ParsedHtml → String → String → Except String PyData)
    (jina : Except String String) (mdRender getText : String → String)
    (hroute : containsStr url "zhihu.com" = false) :
    extract_content url output_format (Except.ok d) extractor jina mdRender getText =
      (match extractor d url (detect_html_type d url) with
       | Except.error _ => jina_fallback url output_format jina
       | Except.ok extracted_data =>
         if extract_html_content extracted_data = "" ∨
             pyIsspace (extract_html_content extracted_data) = true then
           match jina with
           | Except.ok markdown_content =>
             Except.ok ⟨url, convert_markdown markdown_content output_format,
               output_format, "jina", true⟩
           | Except.error _ => jina_fallback url output_format jina
         else
           Except.ok ⟨url,
             convert_content mdRender getText (extract_html_content extracted_data)
               output_format,
             output_format, detect_html_type d url, true⟩) := by
  unfold extract_content
  rw [if_neg (by simp [hroute])]
  rfl

/-- C10: the 400 fetch-error status is unreachable from the endpoint.
Every `fetch_url` exception is wrapped as a 400 `HTTPException` with detail
prefixed "Error fetching URL:" (lines 56-57); the inner boundary at line
246 catches it and redirects to the jina fallback (for any URL, a fetch
error makes the endpoint behave exactly like the jina-fallback block); and
every error the endpoint can return has status 500 (line 258-259). -/
theorem c10_no_400_escapes :
    (∀ e, fetch_url (Except.error e) =
      Except.error ⟨400, "Error fetching URL: " ++ e⟩) ∧
    (∀ (url output_format msg : String)
      (extractor : ParsedHtml → String → String → Except String PyData)
      (jina : Except String String) (mdRender getText : String → String),
      extract_content url output_format (Except.error msg) extractor jina
          mdRender getText =
        jina_fallback url output_format jina) ∧
    (∀ (url output_format : String) (fetchRaw : Except String ParsedHtml)
      (extractor : ParsedHtml → String → String → Except String PyData)
      (jina : Except String String) (mdRender getText : String → String)
      (he : HTTPExceptionModel),
      extract_content url output_format fetchRaw extractor jina mdRender getText =
        Except.error he → he.status_code = 500) := by
  have jf : ∀ (u f : String) (j : Except String String) (he : HTTPExceptionModel),
      jina_fallback u f j = Except.error he → he.status_code = 500 := by
    intro u f j he hh
    cases j with
    | ok m => exact absurd hh (by simp [jina_fallback])
    | error e2 =>
      simp only [jina_fallback, Except.error.injEq] at hh
      rw [← hh]
  refine ⟨fun e => rfl, ?_, ?_⟩
  · intro url output_format msg extractor jina mdRender getText
    by_cases hz : containsStr url "zhihu.com" = true
    · simp only [extract_content, hz, if_true]
    · have hzf : containsStr url "zhihu.com" = false := by
        revert hz; cases containsStr url "zhihu.com" <;> simp
      simp only [extract_content, fetch_url, hzf, Bool.false_eq_true, if_false]
  · intro url output_format fetchRaw extractor jina mdRender getText he h
    by_cases hz : containsStr url "zhihu.com" = true
    · simp only [extract_content, hz, if_true] at h
      exact jf _ _ _ _ h
    · have hzf : containsStr url "zhihu.com" = false := by
        revert hz; cases containsStr url "zhihu.com" <;> simp
      cases fetchRaw with
      | error msg =>
        simp only [extract_content, fetch_url, hzf, Bool.false_eq_true, if_false] at h
        exact jf _ _ _ _ h
      | ok d =>
        rw [extract_content_primary url output_format d extractor jina mdRender getText
          hzf] at h
        split at h
        · exact jf _ _ _ _ h
        · split at h
          · split at h
            · exact Except.noConfusion h
            · exact jf _ _ _ _ h
          · exact Except.noConfusion h

/-- C10 witness: the fetch-error wrapping at a concrete message, and the
error-status conclusion at a concrete request whose fetch and fallback both
fail. -/
theorem c10_witness :
    fetch_url (Except.error "net down") =
      Except.error ⟨400, "Error fetching URL: net down"⟩ ∧
    (⟨500, "boom"⟩ : HTTPExceptionModel).status_code = 500 :=
  ⟨c10_no_400_escapes.1 "net down",
   c10_no_400_escapes.2.2 "https://a.example/" "text" (Except.error "x")
     extractorOkHtml (Except.error "boom") strId strId ⟨500, "boom"⟩ (by decide)⟩

end MagicHtmlApi
